import Mathlib

/-!
Shallow embedding of the `pudget-sound` tide-book generator
(`src/fetch_data.js`, `src/generate_pdf.js`, `src/moon_phases.js`).

Modelling conventions:
  * JavaScript numbers are modelled as `ℚ`; the decimal literals of the
    source (`0.0625`, `0.8`, ...) are exactly representable, so every
    comparison and linear computation of the source is reproduced exactly.
  * A JavaScript division whose denominator is `0` yields a non-finite
    double (`NaN` here, since every such division in this program has a `0`
    numerator as well).  Division is therefore modelled as
    `jsDiv : ℚ → ℚ → Option ℚ`, `none` standing for the non-finite result,
    and `none` propagates through the arithmetic built on top of it.
  * JavaScript strings used for prefix tests and splitting are modelled as
    `List Char`; `s.startsWith(t)` is `t.isPrefixOf s`, `s.split(c)` is
    `List.splitOn c s`.  Event-kind strings, which are only compared for
    equality, stay as `String`.
  * Numeric fields (`p.v`, `p.Velocity_Major`) arrive from the provider as
    decimal strings; `parseFloat` at that boundary is modelled by storing
    the parsed value (`ℚ`) in the record directly.
  * `new Date(p.t).getTime()` is an external-library date parse; it is kept
    abstract as a `parseTime : List Char → ℚ` parameter.
-/

/-- Page geometry constant from `generatePdf` (`const pageWidth = 288`). -/
def pageWidth : ℚ := 288

/-- Page geometry constant from `generatePdf` (`const margin = 10`). -/
def margin : ℚ := 10

/-- Column divider from `generatePdf` (`const dividerX = pageWidth * 0.45`). -/
def dividerX : ℚ := pageWidth * 0.45

/-- The `sizes` record of `generatePdf`, lines 144-148 of
`src/generate_pdf.js`. -/
structure Sizes where
  headerLg : ℚ
  headerSm : ℚ
  title : ℚ
  stationName : ℚ
  data : ℚ
  lineSpacing : ℚ
  stationSpacing : ℚ
  graphHeight : ℚ
  graphBottomMargin : ℚ
  tideLineHeight : ℚ
  moonIconRadius : ℚ

/-- The concrete `sizes` value used by `generatePdf`. -/
def sizes : Sizes :=
  { headerLg := 11, headerSm := 6, title := 8, stationName := 7, data := 6,
    lineSpacing := 0.5, stationSpacing := 2, graphHeight := 30,
    graphBottomMargin := 2, tideLineHeight := 7, moonIconRadius := 7 }

/-- Translation of `getMoonPhaseName` (`src/generate_pdf.js` lines 271-281). -/
def getMoonPhaseName (phase : ℚ) : String :=
  if phase < 0.0625 then "New Moon"
  else if phase < 0.1875 then "Waxing Crescent"
  else if phase < 0.3125 then "First Quarter"
  else if phase < 0.4375 then "Waxing Gibbous"
  else if phase < 0.5625 then "Full Moon"
  else if phase < 0.6875 then "Waning Gibbous"
  else if phase < 0.8125 then "Last Quarter"
  else if phase < 0.9375 then "Waning Crescent"
  else "New Moon"

/-- Classifier written from the SPEC's words (§4.1/§8): eight contiguous
buckets with boundaries 0.0625, 0.1875, 0.3125, 0.4375, 0.5625, 0.6875,
0.8125, 0.9375, every value outside the seven interior intervals (the
wrap-around bucket) mapping to New.  Used only to compare the source's
classifier against the spec. -/
def classifySpec (f : ℚ) : String :=
  if 0.0625 ≤ f ∧ f < 0.1875 then "Waxing Crescent"
  else if 0.1875 ≤ f ∧ f < 0.3125 then "First Quarter"
  else if 0.3125 ≤ f ∧ f < 0.4375 then "Waxing Gibbous"
  else if 0.4375 ≤ f ∧ f < 0.5625 then "Full Moon"
  else if 0.5625 ≤ f ∧ f < 0.6875 then "Waning Gibbous"
  else if 0.6875 ≤ f ∧ f < 0.8125 then "Last Quarter"
  else if 0.8125 ≤ f ∧ f < 0.9375 then "Waning Crescent"
  else "New Moon"

/-- Translation of the `moonPhases` lookup table of `src/moon_phases.js`:
the six literal silhouette path strings, keyed by snake-case phase name.
`new_moon` and `full_moon` have no entry (handled specially by
`drawMoonIcon`). -/
def moonPhases (key : String) : Option String :=
  if key = "waxing_crescent" then
    some ("M 50 0 A 50 50 0 0 1 50 100 A 30 50 0 0 0 50 0 Z")
  else if key = "first_quarter" then
    some ("M 50 0 L 50 100 A 50 50 0 0 0 50 0 Z")
  else if key = "waxing_gibbous" then
    some ("M 50 0 A 50 50 0 0 1 50 100 A -30 50 0 0 1 50 0 Z")
  else if key = "waning_gibbous" then
    some ("M 50 0 A 50 50 0 0 0 50 100 A -30 50 0 0 0 50 0 Z")
  else if key = "last_quarter" then
    some ("M 50 0 L 50 100 A 50 50 0 0 1 50 0 Z")
  else if key = "waning_crescent" then
    some ("M 50 0 A 50 50 0 0 0 50 100 A 30 50 0 0 1 50 0 Z")
  else none

/-- Replace the first occurrence of a character, as JavaScript
`String.prototype.replace(char, char)` does (first match only). -/
def replaceFirstChar (c r : Char) : List Char → List Char
  | [] => []
  | x :: xs => if x = c then r :: xs else x :: replaceFirstChar c r xs

/-- Translation of `getMoonPhaseName(phase).toLowerCase().replace(' ', '_')`
(`src/generate_pdf.js` line 30). -/
def toKey (phaseName : String) : String :=
  String.mk (replaceFirstChar ' ' '_' (phaseName.toList.map Char.toLower))

/-- A fill operation performed by `drawMoonIcon` on the canvas. -/
inductive PaintCmd where
  | darkDisc : PaintCmd
  | lightDisc : PaintCmd
  | silhouette : String → PaintCmd
  deriving DecidableEq

/-- Translation of `drawMoonIcon` (`src/generate_pdf.js` lines 21-48) as the
sequence of fill operations it performs: the dark background disc is always
painted first; then nothing for `new_moon`, a light disc for `full_moon`,
and otherwise the looked-up silhouette path (nothing if the lookup fails). -/
def drawMoonIcon (phase : ℚ) : List PaintCmd :=
  let phaseName := toKey (getMoonPhaseName phase)
  PaintCmd.darkDisc ::
    (if phaseName = "new_moon" then []
     else if phaseName = "full_moon" then [PaintCmd.lightDisc]
     else
       match moonPhases phaseName with
       | some path => [PaintCmd.silhouette path]
       | none => [])

/-- A tide prediction record (`{t, v, type}` of the provider payload);
`v` holds the `parseFloat`-decoded height. -/
structure TidePred where
  t : List Char
  v : ℚ
  type : String
  deriving DecidableEq

/-- A current prediction record (`{Time, Type, Velocity_Major}` of the
provider payload).  The source field `Type` is a reserved word in Lean and
is rendered `Type'`. -/
structure CurrentPred where
  Time : List Char
  Type' : String
  Velocity_Major : ℚ
  deriving DecidableEq

/-- Translation of `formatTime` (`src/generate_pdf.js` lines 7-11):
split on a space; if exactly two parts, return the second, else the empty
string.  (The null / non-string guard of line 8 is outside this model's
domain: timestamps are always present character lists here.) -/
def formatTime (dateTimeString : List Char) : List Char :=
  match dateTimeString.splitOn ' ' with
  | [_, timePart] => timePart
  | _ => []

/-- Translation of the event-type ternary of `generatePdf` line 213:
`p.Type === 'ebb' ? 'max ebb' : (p.Type === 'flood' ? 'max flood' : 'slack')`. -/
def currentEventType (rawType : String) : String :=
  if rawType = "ebb" then "max ebb"
  else if rawType = "flood" then "max flood"
  else "slack"

/-- Model of JavaScript `Number.prototype.toFixed(1)`: sign taken from the
input, then the magnitude rounded to the nearest tenth (ties away from
zero, i.e. the larger `n` of the ECMA-262 algorithm), rendered with
exactly one digit after the point. -/
def toFixed1 (q : ℚ) : String :=
  let sign := if q < 0 then "-" else ""
  let scaled := (⌊|q| * 10 + 1 / 2⌋).toNat
  sign ++ Nat.repr (scaled / 10) ++ "." ++ (Nat.digitChar (scaled % 10)).toString

/-- Translation of the current-event row of `generatePdf` lines 212-216:
`(speed, eventType, time)` where the speed is blanked for slack rows. -/
def currentRow (p : CurrentPred) : String × String × List Char :=
  let eventType := currentEventType p.Type'
  let speed := if eventType = "slack" then "" else toFixed1 p.Velocity_Major
  (speed, eventType, formatTime p.Time)

/-- Translation of the console display mapping of `main` in
`src/fetch_data.js` lines 166-171, including its `else eventType = p.Type`
fallback. -/
def mainEventLabel (rawType : String) : String :=
  if rawType = "slack" then "Slack"
  else if rawType = "ebb" then "Max Ebb"
  else if rawType = "flood" then "Max Flood"
  else rawType

/-- Translation of the tide day bucket of `generatePdf` line 233:
`(allTideData[name]?.predictions || []).filter(p => p.t.startsWith(dayString))`. -/
def tidesForDay (predictions : List TidePred) (dayString : List Char) :
    List TidePred :=
  predictions.filter (fun p => dayString.isPrefixOf p.t)

/-- Translation of the current day bucket of `generatePdf` line 210:
`(allCurrentData[name]?.current_predictions?.cp || []).filter(p => p.Time.startsWith(dayString))`. -/
def currentsForDay (cp : List CurrentPred) (dayString : List Char) :
    List CurrentPred :=
  cp.filter (fun p => dayString.isPrefixOf p.Time)

/-- JavaScript division, `none` standing for the non-finite double produced
when the denominator is `0` (in this program every such division also has a
`0` numerator, so the non-finite value is `NaN`). -/
def jsDiv (a b : ℚ) : Option ℚ :=
  if b = 0 then none else some (a / b)

/-- Translation of `timeToX` (`src/generate_pdf.js` line 70):
`((time - minTime) / timeRange) * width`, `none` propagating a non-finite
intermediate. -/
def timeToX (minTime timeRange width time : ℚ) : Option ℚ :=
  (jsDiv (time - minTime) timeRange).map (fun r => r * width)

/-- Translation of `valueToY` (`src/generate_pdf.js` line 71):
`height - ((value - minValue) / valueRange) * (height * 0.8) - (height * 0.1)`,
`none` propagating a non-finite intermediate. -/
def valueToY (minValue valueRange height value : ℚ) : Option ℚ :=
  (jsDiv (value - minValue) valueRange).map
    (fun r => height - r * (height * 0.8) - height * 0.1)

/-- Minimum of a list of rationals; models `Math.min(...values)` on the
non-empty argument lists that reach it in `drawTideGraph`. -/
def listMin : List ℚ → ℚ
  | [] => 0
  | x :: xs => xs.foldl min x

/-- Maximum of a list of rationals; models `Math.max(...values)` on the
non-empty argument lists that reach it in `drawTideGraph`. -/
def listMax : List ℚ → ℚ
  | [] => 0
  | x :: xs => xs.foldl max x

/-- The `minValue` computed by `drawTideGraph` from its input records. -/
def minValueOf (hiloData : List TidePred) : ℚ :=
  listMin (hiloData.map TidePred.v)

/-- The `maxValue` computed by `drawTideGraph` from its input records. -/
def maxValueOf (hiloData : List TidePred) : ℚ :=
  listMax (hiloData.map TidePred.v)

/-- Translation of the curve-producing part of `drawTideGraph`
(`src/generate_pdf.js` lines 50-98): the guard `hiloData.length < 2`
returns without drawing (`none`); otherwise the result is the list of
canvas coordinates, one `(x, y)` pair per input sample in input order,
through which the bezier curve is threaded (each bezier segment starts and
ends at consecutive pairs, control points at the horizontal midpoint with
the respective endpoint's y).  `parseTime` abstracts
`new Date(p.t).getTime()`. -/
def drawTideGraphCurve (parseTime : List Char → ℚ) (hiloData : List TidePred)
    (width height : ℚ) : Option (List (Option ℚ × Option ℚ)) :=
  if hiloData.length < 2 then none
  else
    let points := hiloData.map (fun p => (parseTime p.t, p.v))
    let minTime := (points.headD (0, 0)).1
    let maxTime := (points.getLastD (0, 0)).1
    let timeRange := maxTime - minTime
    let values := points.map (fun p => p.2)
    let minValue := listMin values
    let maxValue := listMax values
    let valueRange := maxValue - minValue
    some (points.map (fun p =>
      (timeToX minTime timeRange width p.1,
       valueToY minValue valueRange height p.2)))

/-- The graph-section cursor advance of the tide loop of `generatePdf`
lines 235-238: fires whenever the station is graph-enabled and the day
bucket is non-empty (`graphStations[name] && tidesForDay.length > 0`),
adding `graphHeight + graphBottomMargin + 8`. -/
def graphCursorAdvance (s : Sizes) (graphEnabled : Bool)
    (tidesForDayList : List TidePred) : ℚ :=
  if graphEnabled ∧ 0 < tidesForDayList.length then
    s.graphHeight + s.graphBottomMargin + 8
  else 0

/-- Total cursor advance of one tide station block, read off the `tidesY`
mutations of `generatePdf` lines 235-264: optional graph advance, heading
line, two tide data lines (or one placeholder line when the bucket is
empty), inter-station spacing. -/
def tideBlockAdvance (s : Sizes) (graphEnabled : Bool)
    (tidesForDayList : List TidePred) : ℚ :=
  graphCursorAdvance s graphEnabled tidesForDayList
    + s.stationName
    + (if 0 < tidesForDayList.length then s.tideLineHeight * 2 else s.data)
    + s.stationSpacing

set_option linter.unusedVariables false in
/-- The data series handed to `drawTideGraph` by `generatePdf` lines
233-238: the day's filtered hi-lo events, when the station is graph-enabled
and the bucket is non-empty, else no graph.  The independently fetched
`allHourlyTideData` series (`hourlyTideData` here) is in scope in the
source loop but never read by it. -/
def graphDataForDay (graphEnabled : Bool)
    (tideData hourlyTideData : List TidePred) (dayString : List Char) :
    Option (List TidePred) :=
  let tides := tidesForDay tideData dayString
  if graphEnabled ∧ 0 < tides.length then some tides else none

/-- Translation of `colWidth` (`generatePdf` line 245):
`(pageWidth - dividerX - margin) / numEntries`. -/
def colWidth (numEntries : ℕ) : ℚ :=
  (pageWidth - dividerX - margin) / numEntries

/-- Translation of `startOffset` (`generatePdf` line 246):
`(numEntries < 4) ? ((pageWidth - dividerX - margin) - (numEntries * colWidth)) / 2 : 0`. -/
def startOffset (numEntries : ℕ) : ℚ :=
  if numEntries < 4 then
    ((pageWidth - dividerX - margin) - numEntries * colWidth numEntries) / 2
  else 0

/-- A concrete hi-lo day bucket in the shape the provider returns for a
graph-enabled station (timestamps of the spec's Seattle scenario; the
heights are arbitrary integers, chosen kernel-evaluable). -/
def seattleHilo : List TidePred :=
  [⟨"2026-01-01 06:49".toList, 9, "H"⟩,
   ⟨"2026-01-01 13:10".toList, 1, "L"⟩]

/-- A concrete hourly sample series for the same station and day, denser
than and distinct from the hi-lo bucket. -/
def seattleHourly : List TidePred :=
  [⟨"2026-01-01 00:00".toList, 5, ""⟩,
   ⟨"2026-01-01 01:00".toList, 6, ""⟩,
   ⟨"2026-01-01 02:00".toList, 7, ""⟩]

/-- The ISO date key of 2026-01-01, as `generatePdf` builds `dayString`. -/
def jan1Key : List Char := "2026-01-01".toList

/-- A two-sample day bucket whose two heights are equal: a degenerate
curve input with zero value range. -/
def flatHilo : List TidePred :=
  [⟨"2026-01-01 00:00".toList, 5, "H"⟩,
   ⟨"2026-01-01 12:00".toList, 5, "L"⟩]

/-- A concrete stand-in for `new Date(..).getTime()` on the two `flatHilo`
timestamps (minutes since midnight). -/
def flatParseTime : List Char → ℚ :=
  fun s => if s = "2026-01-01 00:00".toList then 0 else 720

/-- A two-sample day bucket with distinct heights (1 rising to 3). -/
def rampHilo : List TidePred :=
  [⟨"2026-01-01 00:00".toList, 1, "L"⟩,
   ⟨"2026-01-01 12:00".toList, 3, "H"⟩]

/-- A one-sample day bucket: a degenerate curve input with fewer than two
samples. -/
def oneHilo : List TidePred :=
  [⟨"2026-01-01 05:00".toList, 3, "H"⟩]

/-- A concrete max-ebb current event with velocity -5/4 knots. -/
def cEbb : CurrentPred :=
  ⟨"2026-01-01 05:00".toList, "ebb", -5/4⟩

/-- Two consecutive ISO date keys. -/
def twoDays : List (List Char) :=
  ["2026-01-01".toList, "2026-01-02".toList]

/-- Two tide events whose days appear in the opposite order to `twoDays`. -/
def outOfOrderEvents : List TidePred :=
  [⟨"2026-01-02 01:00".toList, 2, "H"⟩,
   ⟨"2026-01-01 01:00".toList, 1, "H"⟩]

/-- Two tide events whose days appear in the same order as `twoDays`. -/
def orderedEvents : List TidePred :=
  [⟨"2026-01-01 01:00".toList, 1, "H"⟩,
   ⟨"2026-01-02 01:00".toList, 2, "H"⟩]

/-- Folding `min` over a list whose members all equal the accumulator
leaves the accumulator unchanged. -/
theorem foldl_min_all_eq (c : ℚ) :
    ∀ l : List ℚ, (∀ x ∈ l, x = c) → l.foldl min c = c := by
  intro l
  induction l with
  | nil => intro _; rfl
  | cons x xs ih =>
      intro h
      have hx : x = c := h x (List.mem_cons_self x xs)
      have hxs : ∀ y ∈ xs, y = c := fun y hy => h y (List.mem_cons_of_mem x hy)
      simp [hx, min_self, ih hxs]

/-- Folding `max` over a list whose members all equal the accumulator
leaves the accumulator unchanged. -/
theorem foldl_max_all_eq (c : ℚ) :
    ∀ l : List ℚ, (∀ x ∈ l, x = c) → l.foldl max c = c := by
  intro l
  induction l with
  | nil => intro _; rfl
  | cons x xs ih =>
      intro h
      have hx : x = c := h x (List.mem_cons_self x xs)
      have hxs : ∀ y ∈ xs, y = c := fun y hy => h y (List.mem_cons_of_mem x hy)
      simp [hx, max_self, ih hxs]

/-- On a non-empty all-constant list, `listMin` returns that constant. -/
theorem listMin_all_eq (l : List ℚ) (c : ℚ) (hne : l ≠ [])
    (h : ∀ x ∈ l, x = c) : listMin l = c := by
  cases l with
  | nil => exact absurd rfl hne
  | cons x xs =>
      have hx : x = c := h x (List.mem_cons_self x xs)
      have hxs : ∀ y ∈ xs, y = c := fun y hy => h y (List.mem_cons_of_mem x hy)
      simpa [listMin, hx] using foldl_min_all_eq c xs hxs

/-- On a non-empty all-constant list, `listMax` returns that constant. -/
theorem listMax_all_eq (l : List ℚ) (c : ℚ) (hne : l ≠ [])
    (h : ∀ x ∈ l, x = c) : listMax l = c := by
  cases l with
  | nil => exact absurd rfl hne
  | cons x xs =>
      have hx : x = c := h x (List.mem_cons_self x xs)
      have hxs : ∀ y ∈ xs, y = c := fun y hy => h y (List.mem_cons_of_mem x hy)
      simpa [listMax, hx] using foldl_max_all_eq c xs hxs

/-- Prepending an element matched by exactly one key of `ds` to the list
being filtered inserts that element (up to permutation) at the front of the
flattened per-key buckets. -/
theorem flatten_filter_cons_perm {α β : Type} (q : β → α → Bool) (a : α)
    (l : List α) :
    ∀ ds : List β, ds.countP (fun d => q d a) = 1 →
      ((ds.map (fun d => (a :: l).filter (q d))).flatten).Perm
        (a :: (ds.map (fun d => l.filter (q d))).flatten) := by
  intro ds
  induction ds with
  | nil => intro h; simp [List.countP_nil] at h
  | cons d ds ih =>
      intro h
      rw [List.countP_cons] at h
      by_cases hd : q d a = true
      · simp [hd] at h
        have hmap : ds.map (fun d => (a :: l).filter (q d))
            = ds.map (fun d => l.filter (q d)) := by
          apply List.map_congr_left
          intro e he
          rw [List.filter_cons]
          simp [h e he]
        rw [List.map_cons, List.map_cons, List.flatten_cons, List.flatten_cons,
          hmap, List.filter_cons, if_pos hd]
        exact List.Perm.refl _
      · simp [hd] at h
        rw [List.map_cons, List.map_cons, List.flatten_cons, List.flatten_cons,
          List.filter_cons, if_neg hd]
        exact ((ih h).append_left _).trans List.perm_middle

/-- Flattening per-key filter buckets of a list in which every element is
matched by exactly one key yields a permutation of the list. -/
theorem flatten_filter_perm {α β : Type} (q : β → α → Bool) :
    ∀ (l : List α) (ds : List β),
      (∀ a ∈ l, ds.countP (fun d => q d a) = 1) →
      ((ds.map (fun d => l.filter (q d))).flatten).Perm l := by
  intro l
  induction l with
  | nil => intro ds _; simp
  | cons a l ih =>
      intro ds h
      have ha := h a (List.mem_cons_self a l)
      have hl : ∀ b ∈ l, ds.countP (fun d => q d b) = 1 :=
        fun b hb => h b (List.mem_cons_of_mem a hb)
      exact (flatten_filter_cons_perm q a l ds ha).trans
        (List.Perm.cons a (ih ds hl))

/-- A list containing two distinct elements that both satisfy `p` counts at
least two matches of `p`. -/
theorem two_le_countP {α : Type} (p : α → Bool) :
    ∀ (l : List α) (a b : α), a ∈ l → b ∈ l → a ≠ b →
      p a = true → p b = true → 2 ≤ l.countP p := by
  intro l
  induction l with
  | nil => intro a b ha _ _ _ _; exact absurd ha (List.not_mem_nil a)
  | cons x xs ih =>
      intro a b ha hb hne hpa hpb
      rw [List.countP_cons]
      rcases List.mem_cons.mp ha with rfl | ha2
      · have hb2 : b ∈ xs := by
          rcases List.mem_cons.mp hb with rfl | hb2
          · exact absurd rfl hne
          · exact hb2
        simp [hpa]
        exact ⟨b, hb2, hpb⟩
      · rcases List.mem_cons.mp hb with rfl | hb2
        · simp [hpb]
          exact ⟨a, ha2, hpa⟩
        · have h2 := ih a b ha2 hb2 hne hpa hpb
          omega

/-- The decimal digit character produced for `n % 10` is always a digit. -/
theorem digitChar_mod_ten_isDigit (n : ℕ) :
    (Nat.digitChar (n % 10)).isDigit = true := by
  have h : n % 10 < 10 := Nat.mod_lt _ (by norm_num)
  have hall : ∀ m : Fin 10, (Nat.digitChar m.val).isDigit = true := by decide
  simpa using hall ⟨n % 10, h⟩

/-- C1: the curve for a graph-enabled tide station's day is threaded through
the day's filtered hi-lo event bucket, not through the hourly sample
series: on concrete data, `generatePdf`'s graph input is the hi-lo bucket,
it is unchanged when the hourly series is replaced by a different list (the
loop never reads it), and it differs from the day's hourly samples. -/
theorem c1_graph_series_is_hilo_bucket :
    graphDataForDay true seattleHilo seattleHourly jan1Key
      = some (tidesForDay seattleHilo jan1Key)
    ∧ tidesForDay seattleHilo jan1Key = seattleHilo
    ∧ graphDataForDay true seattleHilo [] jan1Key
        = graphDataForDay true seattleHilo seattleHourly jan1Key
    ∧ some seattleHilo ≠ some (tidesForDay seattleHourly jan1Key) := by
  decide

/-- C4 counterexample: at illumination exactly 0.5625 the classifier does
not return Full (the Full bucket is the half-open interval up to 0.5625). -/
theorem c4_boundary_not_full :
    getMoonPhaseName 0.5625 ≠ "Full Moon" := by
  norm_num [getMoonPhaseName]
  decide

/-- C4 amended: at illumination exactly 0.5625 the classifier returns
Waning Gibbous, and the icon is the waning-gibbous silhouette path painted
over the always-painted dark background disc (no solid light disc). -/
theorem c4_boundary_waning_gibbous :
    getMoonPhaseName 0.5625 = "Waning Gibbous"
    ∧ drawMoonIcon 0.5625 =
        [PaintCmd.darkDisc,
         PaintCmd.silhouette ("M 50 0 A 50 50 0 0 0 50 100 A -30 50 0 0 0 50 0 Z")] := by
  have h : getMoonPhaseName 0.5625 = "Waning Gibbous" := by
    norm_num [getMoonPhaseName]
  refine ⟨h, ?_⟩
  rw [drawMoonIcon, h]
  decide

/-- C5 counterexample: for an empty tide day bucket the cursor advance is
heading + one placeholder data line + spacing, not heading + zero data
lines + spacing as claimed. -/
theorem c5_empty_day_placeholder_advance :
    tideBlockAdvance sizes false []
      = sizes.stationName + sizes.data + sizes.stationSpacing
    ∧ tideBlockAdvance sizes false []
      ≠ sizes.stationName + sizes.stationSpacing := by
  constructor <;> norm_num [tideBlockAdvance, graphCursorAdvance, sizes]

/-- C5 amended: a tide station block advances the cursor by one heading
line + two tide data lines + fixed spacing whenever the day has at least
one event — independent of the event count — plus the fixed graph region
for graph-enabled stations; an empty day instead contributes one
placeholder data line (height `sizes.data`), not zero. -/
theorem c5_tide_block_advance (g : Bool) (l : List TidePred) :
    (l.length = 0 → tideBlockAdvance sizes g l
        = sizes.stationName + sizes.data + sizes.stationSpacing)
    ∧ (1 ≤ l.length → tideBlockAdvance sizes g l
        = (if g then sizes.graphHeight + sizes.graphBottomMargin + 8 else 0)
          + sizes.stationName + sizes.tideLineHeight * 2 + sizes.stationSpacing) := by
  constructor
  · intro h
    have hl : l = [] := List.length_eq_zero.mp h
    subst hl
    simp [tideBlockAdvance, graphCursorAdvance]
  · intro h
    have hpos : 0 < l.length := h
    cases g <;> simp [tideBlockAdvance, graphCursorAdvance, hpos]

/-- C5 witness: the amended advance equalities at an empty bucket and at a
two-event bucket of a graph-enabled station. -/
theorem c5_tide_block_advance_witness :
    (([] : List TidePred).length = 0
      ∧ tideBlockAdvance sizes false []
          = sizes.stationName + sizes.data + sizes.stationSpacing)
    ∧ (1 ≤ seattleHilo.length
      ∧ tideBlockAdvance sizes true seattleHilo
          = (if true then sizes.graphHeight + sizes.graphBottomMargin + 8 else 0)
            + sizes.stationName + sizes.tideLineHeight * 2 + sizes.stationSpacing) :=
  ⟨⟨rfl, (c5_tide_block_advance false []).1 rfl⟩,
   ⟨by decide, (c5_tide_block_advance true seattleHilo).2 (by decide)⟩⟩

/-- C6 counterexample: in the PDF renderer an unknown raw event kind is
displayed as "slack", not echoed unchanged. -/
theorem c6_unknown_kind_displays_slack :
    currentEventType ("vortex") = "slack"
    ∧ currentEventType ("vortex") ≠ "vortex" := by
  decide

/-- C6 amended: the PDF renderer collapses every raw kind other than
`ebb`/`flood` to the "slack" label; the echo-the-raw-kind-unchanged
fallback exists only in the fetch script's console listing, which prints
unknown kinds verbatim.  Neither path fails. -/
theorem c6_unknown_kind_fallbacks (raw : String)
    (h1 : raw ≠ "ebb") (h2 : raw ≠ "flood") :
    currentEventType raw = "slack"
    ∧ (raw ≠ "slack" → mainEventLabel raw = raw) := by
  constructor
  · rw [currentEventType, if_neg h1, if_neg h2]
  · intro h3
    rw [mainEventLabel, if_neg h3, if_neg h1, if_neg h2]

/-- C6 witness: the amended fallbacks evaluated at the unknown kind
"eddy". -/
theorem c6_unknown_kind_fallbacks_witness :
    ("eddy" ≠ "ebb" ∧ "eddy" ≠ "flood")
    ∧ (currentEventType ("eddy") = "slack"
        ∧ ("eddy" ≠ "slack" → mainEventLabel ("eddy") = "eddy")) :=
  ⟨⟨by decide, by decide⟩, c6_unknown_kind_fallbacks "eddy" (by decide) (by decide)⟩

/-- C10: for any day with at least one tide event the side-by-side group's
start offset is exactly 0 in exact arithmetic — the sub-column width is the
full column width divided by the entry count, so the centering branch never
shifts the group. -/
theorem c10_start_offset_zero (numEntries : ℕ) (h : 1 ≤ numEntries) :
    startOffset numEntries = 0 := by
  have hn : (numEntries : ℚ) ≠ 0 := Nat.cast_ne_zero.mpr (by omega)
  rw [startOffset, colWidth]
  split_ifs with h4
  · rw [mul_div_cancel₀ _ hn, sub_self, zero_div]
  · rfl

/-- C10 witness: the offset vanishes at two entries. -/
theorem c10_start_offset_zero_witness :
    1 ≤ 2 ∧ startOffset 2 = 0 :=
  ⟨by norm_num, c10_start_offset_zero 2 (by norm_num)⟩

set_option linter.unusedVariables false in
/-- C3: on the domain [0,1) the source classifier realizes exactly the
spec's eight-bucket partition with boundaries 0.0625, 0.1875, 0.3125,
0.4375, 0.5625, 0.6875, 0.8125, 0.9375 (values at or above 0.9375 mapping
back to New), and the four quoted sample points classify as stated. -/
theorem c3_classifier_matches_spec (f : ℚ) (h0 : 0 ≤ f) (h1 : f < 1) :
    getMoonPhaseName f = classifySpec f
    ∧ getMoonPhaseName 0.06 = "New Moon"
    ∧ getMoonPhaseName 0.07 = "Waxing Crescent"
    ∧ getMoonPhaseName 0.5 = "Full Moon"
    ∧ getMoonPhaseName 0.94 = "New Moon" := by
  refine ⟨?_, by norm_num [getMoonPhaseName], by norm_num [getMoonPhaseName],
    by norm_num [getMoonPhaseName], by norm_num [getMoonPhaseName]⟩
  by_cases a1 : f < 0.0625
  · rw [getMoonPhaseName, classifySpec, if_pos a1,
      if_neg (by rintro ⟨x, y⟩; linarith), if_neg (by rintro ⟨x, y⟩; linarith),
      if_neg (by rintro ⟨x, y⟩; linarith), if_neg (by rintro ⟨x, y⟩; linarith),
      if_neg (by rintro ⟨x, y⟩; linarith), if_neg (by rintro ⟨x, y⟩; linarith),
      if_neg (by rintro ⟨x, y⟩; linarith)]
  · by_cases a2 : f < 0.1875
    · rw [getMoonPhaseName, classifySpec, if_neg a1, if_pos a2,
        if_pos (show (0.0625:ℚ) ≤ f ∧ f < 0.1875 from ⟨le_of_not_lt a1, a2⟩)]
    · by_cases a3 : f < 0.3125
      · rw [getMoonPhaseName, classifySpec, if_neg a1, if_neg a2, if_pos a3,
          if_neg (by rintro ⟨x, y⟩; linarith),
          if_pos (show (0.1875:ℚ) ≤ f ∧ f < 0.3125 from ⟨le_of_not_lt a2, a3⟩)]
      · by_cases a4 : f < 0.4375
        · rw [getMoonPhaseName, classifySpec, if_neg a1, if_neg a2, if_neg a3, if_pos a4,
            if_neg (by rintro ⟨x, y⟩; linarith), if_neg (by rintro ⟨x, y⟩; linarith),
            if_pos (show (0.3125:ℚ) ≤ f ∧ f < 0.4375 from ⟨le_of_not_lt a3, a4⟩)]
        · by_cases a5 : f < 0.5625
          · rw [getMoonPhaseName, classifySpec, if_neg a1, if_neg a2, if_neg a3,
              if_neg a4, if_pos a5,
              if_neg (by rintro ⟨x, y⟩; linarith), if_neg (by rintro ⟨x, y⟩; linarith),
              if_neg (by rintro ⟨x, y⟩; linarith),
              if_pos (show (0.4375:ℚ) ≤ f ∧ f < 0.5625 from ⟨le_of_not_lt a4, a5⟩)]
          · by_cases a6 : f < 0.6875
            · rw [getMoonPhaseName, classifySpec, if_neg a1, if_neg a2, if_neg a3,
                if_neg a4, if_neg a5, if_pos a6,
                if_neg (by rintro ⟨x, y⟩; linarith), if_neg (by rintro ⟨x, y⟩; linarith),
                if_neg (by rintro ⟨x, y⟩; linarith), if_neg (by rintro ⟨x, y⟩; linarith),
                if_pos (show (0.5625:ℚ) ≤ f ∧ f < 0.6875 from ⟨le_of_not_lt a5, a6⟩)]
            · by_cases a7 : f < 0.8125
              · rw [getMoonPhaseName, classifySpec, if_neg a1, if_neg a2, if_neg a3,
                  if_neg a4, if_neg a5, if_neg a6, if_pos a7,
                  if_neg (by rintro ⟨x, y⟩; linarith), if_neg (by rintro ⟨x, y⟩; linarith),
                  if_neg (by rintro ⟨x, y⟩; linarith), if_neg (by rintro ⟨x, y⟩; linarith),
                  if_neg (by rintro ⟨x, y⟩; linarith),
                  if_pos (show (0.6875:ℚ) ≤ f ∧ f < 0.8125 from ⟨le_of_not_lt a6, a7⟩)]
              · by_cases a8 : f < 0.9375
                · rw [getMoonPhaseName, classifySpec, if_neg a1, if_neg a2, if_neg a3,
                    if_neg a4, if_neg a5, if_neg a6, if_neg a7, if_pos a8,
                    if_neg (by rintro ⟨x, y⟩; linarith), if_neg (by rintro ⟨x, y⟩; linarith),
                    if_neg (by rintro ⟨x, y⟩; linarith), if_neg (by rintro ⟨x, y⟩; linarith),
                    if_neg (by rintro ⟨x, y⟩; linarith), if_neg (by rintro ⟨x, y⟩; linarith),
                    if_pos (show (0.8125:ℚ) ≤ f ∧ f < 0.9375 from ⟨le_of_not_lt a7, a8⟩)]
                · rw [getMoonPhaseName, classifySpec, if_neg a1, if_neg a2, if_neg a3,
                    if_neg a4, if_neg a5, if_neg a6, if_neg a7, if_neg a8,
                    if_neg (by rintro ⟨x, y⟩; linarith), if_neg (by rintro ⟨x, y⟩; linarith),
                    if_neg (by rintro ⟨x, y⟩; linarith), if_neg (by rintro ⟨x, y⟩; linarith),
                    if_neg (by rintro ⟨x, y⟩; linarith), if_neg (by rintro ⟨x, y⟩; linarith),
                    if_neg (by rintro ⟨x, y⟩; linarith)]

/-- C3 witness: the bucket equivalence evaluated at illumination 1/2. -/
theorem c3_classifier_matches_spec_witness :
    ((0:ℚ) ≤ 1/2 ∧ (1/2:ℚ) < 1)
    ∧ getMoonPhaseName (1/2) = classifySpec (1/2) :=
  ⟨⟨by norm_num, by norm_num⟩,
   (c3_classifier_matches_spec (1/2) (by norm_num) (by norm_num)).1⟩

/-- C8: a rendered current event displaying as slack has an empty speed
field (never "0.0"); a non-slack event's speed field is exactly the
`toFixed(1)` rendering of its signed velocity, which always carries exactly
one digit after the decimal point. -/
theorem c8_slack_blank_nonslack_one_decimal (p : CurrentPred) :
    ((currentRow p).2.1 = "slack" →
      (currentRow p).1 = "" ∧ (currentRow p).1 ≠ "0.0")
    ∧ ((currentRow p).2.1 ≠ "slack" →
      (currentRow p).1 = toFixed1 p.Velocity_Major
      ∧ ∃ s : String, ∃ c : Char,
          (currentRow p).1 = s ++ "." ++ c.toString ∧ c.isDigit = true) := by
  have h21 : (currentRow p).2.1 = currentEventType p.Type' := rfl
  have h1 : (currentRow p).1
      = (if currentEventType p.Type' = "slack" then ""
         else toFixed1 p.Velocity_Major) := rfl
  constructor
  · intro hs
    rw [h21] at hs
    rw [h1, if_pos hs]
    exact ⟨rfl, by decide⟩
  · intro hs
    rw [h21] at hs
    rw [h1, if_neg hs]
    refine ⟨rfl, ?_⟩
    exact ⟨(if p.Velocity_Major < 0 then "-" else "")
        ++ Nat.repr ((⌊|p.Velocity_Major| * 10 + 1 / 2⌋).toNat / 10),
      Nat.digitChar ((⌊|p.Velocity_Major| * 10 + 1 / 2⌋).toNat % 10),
      rfl, digitChar_mod_ten_isDigit _⟩

/-- C8 witness: the non-slack branch evaluated at a max-ebb event with
velocity -5/4 knots, whose speed field renders as "-1.3". -/
theorem c8_slack_blank_nonslack_one_decimal_witness :
    ((currentRow cEbb).2.1 ≠ "slack")
    ∧ ((currentRow cEbb).1 = toFixed1 cEbb.Velocity_Major
      ∧ ∃ s : String, ∃ c : Char,
          (currentRow cEbb).1 = s ++ "." ++ c.toString ∧ c.isDigit = true)
    ∧ toFixed1 cEbb.Velocity_Major = "-1.3" := by
  refine ⟨by decide, (c8_slack_blank_nonslack_one_decimal cEbb).2 (by decide), ?_⟩
  show toFixed1 (-5/4) = "-1.3"
  have habs : |(-5/4 : ℚ)| = 5/4 := by norm_num
  have hfl : (⌊|(-5/4 : ℚ)| * 10 + 1 / 2⌋ : ℤ) = 13 := by rw [habs]; norm_num
  have hneg : ((-5/4 : ℚ) < 0) := by norm_num
  rw [toFixed1, if_pos hneg, hfl]
  decide

/-- C7: with at least two samples and a non-zero value range, the curve's
y-coordinates are exactly the `valueToY` normalization of each sample, a
sample at the minimum value maps to `height*0.9`, and a sample at the
maximum value maps to `height*0.1` (higher value, smaller y). -/
theorem c7_normalizer_margins (parseTime : List Char → ℚ) (hilo : List TidePred)
    (width height : ℚ) (hlen : 2 ≤ hilo.length)
    (hrange : minValueOf hilo ≠ maxValueOf hilo) :
    ((drawTideGraphCurve parseTime hilo width height).map
        (fun L => L.map (fun xy => xy.2))
      = some (hilo.map (fun p =>
          valueToY (minValueOf hilo) (maxValueOf hilo - minValueOf hilo) height p.v)))
    ∧ (∀ p ∈ hilo, p.v = minValueOf hilo →
        valueToY (minValueOf hilo) (maxValueOf hilo - minValueOf hilo) height p.v
          = some (height * 0.9))
    ∧ (∀ p ∈ hilo, p.v = maxValueOf hilo →
        valueToY (minValueOf hilo) (maxValueOf hilo - minValueOf hilo) height p.v
          = some (height * 0.1)) := by
  have hne : maxValueOf hilo - minValueOf hilo ≠ 0 :=
    sub_ne_zero_of_ne (Ne.symm hrange)
  refine ⟨?_, ?_, ?_⟩
  · rw [drawTideGraphCurve, if_neg (by omega)]
    simp only [Option.map_some', List.map_map, Function.comp_def, minValueOf, maxValueOf]
  · intro p hp hmin
    rw [hmin, valueToY, jsDiv, sub_self, if_neg hne, Option.map_some']
    rw [zero_div]
    congr 1
    ring
  · intro p hp hmax
    rw [hmax, valueToY, jsDiv, if_neg hne, Option.map_some']
    rw [div_self hne]
    congr 1
    ring

/-- C7 witness: the normalizer margins on a two-sample bucket rising from
height 1 to height 3, drawn at canvas height 10. -/
theorem c7_normalizer_margins_witness :
    (2 ≤ rampHilo.length ∧ minValueOf rampHilo ≠ maxValueOf rampHilo)
    ∧ (∀ p ∈ rampHilo, p.v = minValueOf rampHilo →
        valueToY (minValueOf rampHilo) (maxValueOf rampHilo - minValueOf rampHilo) 10 p.v
          = some (10 * 0.9)) := by
  have hmin : minValueOf rampHilo = 1 := by
    norm_num [minValueOf, listMin, rampHilo]
  have hmax : maxValueOf rampHilo = 3 := by
    norm_num [maxValueOf, listMax, rampHilo]
  have hne : minValueOf rampHilo ≠ maxValueOf rampHilo := by
    rw [hmin, hmax]; norm_num
  exact ⟨⟨by decide, hne⟩,
    (c7_normalizer_margins (fun _ => 0) rampHilo 100 10 (by decide) hne).2.1⟩

/-- C2 counterexample: on a two-sample day bucket with equal heights (zero
value range) the normalizer still produces a curve whose every y-coordinate
is the non-finite NaN value (modelled `none`), and the caller advances the
graph cursor for a one-sample bucket even though no curve is drawn — three
ways the claim fails as stated. -/
theorem c2_zero_range_nan_coordinates :
    drawTideGraphCurve flatParseTime flatHilo 100 30
      = some [(some 0, none), (some 100, none)]
    ∧ drawTideGraphCurve flatParseTime flatHilo 100 30 ≠ none
    ∧ graphCursorAdvance sizes true oneHilo
        = sizes.graphHeight + sizes.graphBottomMargin + 8
    ∧ drawTideGraphCurve flatParseTime oneHilo 100 30 = none := by
  have hpts : flatHilo.map (fun p => (flatParseTime p.t, p.v))
      = [(0, 5), (720, 5)] := by decide
  have hmain : drawTideGraphCurve flatParseTime flatHilo 100 30
      = some [(some 0, none), (some 100, none)] := by
    simp only [drawTideGraphCurve]
    rw [if_neg (by decide), hpts]
    norm_num [timeToX, valueToY, jsDiv, listMin, listMax]
  refine ⟨hmain, by rw [hmain]; exact Option.some_ne_none _, ?_, ?_⟩
  · rw [graphCursorAdvance, if_pos ⟨rfl, by decide⟩]
  · rw [drawTideGraphCurve, if_pos (by decide)]

/-- C2 amended: with fewer than two samples the normalizer draws nothing
(no curve, no NaN); a zero value range is NOT guarded — a non-empty curve
is still produced and every one of its y-coordinates is NaN; and the
caller's graph advance fires for any non-empty day bucket of a
graph-enabled station (including the one-sample case where the normalizer
declined), being skipped only when the bucket is empty. -/
theorem c2_degenerate_handling (parseTime : List Char → ℚ)
    (hilo : List TidePred) (width height c : ℚ) :
    (hilo.length < 2 → drawTideGraphCurve parseTime hilo width height = none)
    ∧ (2 ≤ hilo.length → (∀ p ∈ hilo, p.v = c) →
        ∃ L, drawTideGraphCurve parseTime hilo width height = some L
          ∧ L ≠ [] ∧ ∀ xy ∈ L, xy.2 = none)
    ∧ (hilo.length = 1 →
        drawTideGraphCurve parseTime hilo width height = none
        ∧ graphCursorAdvance sizes true hilo
            = sizes.graphHeight + sizes.graphBottomMargin + 8)
    ∧ (hilo.length = 0 → graphCursorAdvance sizes true hilo = 0) := by
  refine ⟨?_, ?_, ?_, ?_⟩
  · intro h
    rw [drawTideGraphCurve, if_pos h]
  · intro h2 hall
    have hnlt : ¬ hilo.length < 2 := by omega
    rw [drawTideGraphCurve, if_neg hnlt]
    refine ⟨_, rfl, ?_, ?_⟩
    · intro hnil
      rw [List.map_eq_nil_iff, List.map_eq_nil_iff] at hnil
      rw [hnil] at h2
      simp at h2
    · intro xy hxy
      rw [List.mem_map] at hxy
      obtain ⟨q, hq, rfl⟩ := hxy
      have hvals : ∀ x ∈ (hilo.map (fun p => (parseTime p.t, p.v))).map
          (fun p => p.2), x = c := by
        intro x hx
        rw [List.map_map, List.mem_map] at hx
        obtain ⟨p, hp, rfl⟩ := hx
        exact hall p hp
      have hne2 : (hilo.map (fun p => (parseTime p.t, p.v))).map
          (fun p => p.2) ≠ [] := by
        intro hnil
        rw [List.map_eq_nil_iff, List.map_eq_nil_iff] at hnil
        rw [hnil] at h2
        simp at h2
      have hmn := listMin_all_eq _ c hne2 hvals
      have hmx := listMax_all_eq _ c hne2 hvals
      dsimp only
      rw [valueToY, hmn, hmx, sub_self, jsDiv, if_pos rfl, Option.map_none']
  · intro h1
    constructor
    · rw [drawTideGraphCurve, if_pos (by omega)]
    · rw [graphCursorAdvance, if_pos ⟨rfl, by omega⟩]
  · intro h0
    rw [graphCursorAdvance, if_neg ?_]
    rintro ⟨-, hlt⟩
    omega

/-- C2 witness: the amended behaviour evaluated on the one-sample and the
flat two-sample buckets. -/
theorem c2_degenerate_handling_witness :
    (oneHilo.length < 2 ∧ drawTideGraphCurve (fun _ => 0) oneHilo 100 30 = none)
    ∧ (2 ≤ flatHilo.length ∧ (∀ p ∈ flatHilo, p.v = 5)
      ∧ ∃ L, drawTideGraphCurve (fun _ => 0) flatHilo 100 30 = some L
          ∧ L ≠ [] ∧ ∀ xy ∈ L, xy.2 = none)
    ∧ (oneHilo.length = 1
      ∧ drawTideGraphCurve (fun _ => 0) oneHilo 100 30 = none
      ∧ graphCursorAdvance sizes true oneHilo
          = sizes.graphHeight + sizes.graphBottomMargin + 8) := by
  refine ⟨⟨by decide,
      (c2_degenerate_handling (fun _ => 0) oneHilo 100 30 0).1 (by decide)⟩,
    ⟨by decide, by decide,
      (c2_degenerate_handling (fun _ => 0) flatHilo 100 30 5).2.1
        (by decide) (by decide)⟩, ?_⟩
  have h := (c2_degenerate_handling (fun _ => 0) oneHilo 100 30 0).2.2.1 (by decide)
  exact ⟨by decide, h.1, h.2⟩

/-- C9 counterexample: two events whose calendar days occur in the
opposite order to the day range satisfy the claim's exactly-one-day-key
hypothesis, yet the concatenation of the per-day buckets differs from the
original event sequence — sequence equality fails for day-unsorted input. -/
theorem c9_concatenation_not_identity :
    (∀ e ∈ outOfOrderEvents, twoDays.countP (fun d => d.isPrefixOf e.t) = 1)
    ∧ (twoDays.map (fun d => tidesForDay outOfOrderEvents d)).flatten
        ≠ outOfOrderEvents := by
  decide

/-- C9 amended: when every event's timestamp begins with exactly one day
key of the range, bucketing is non-lossy and order-preserving in the
following sense — the concatenation of the per-day buckets is a
permutation of the original event sequence (equality holds only when the
sequence is day-sorted), every bucket is an order-preserving subsequence
of the original, and buckets of two distinct days are disjoint; the same
permutation property holds for the current-station bucketing. -/
theorem c9_bucketing_nonlossy (events : List TidePred) (days : List (List Char))
    (huniq : ∀ e ∈ events, days.countP (fun d => d.isPrefixOf e.t) = 1) :
    ((days.map (fun d => tidesForDay events d)).flatten).Perm events
    ∧ (∀ d, (tidesForDay events d).Sublist events)
    ∧ (∀ d1 ∈ days, ∀ d2 ∈ days, d1 ≠ d2 →
        ∀ e ∈ tidesForDay events d1, e ∉ tidesForDay events d2)
    ∧ (∀ cevents : List CurrentPred,
        (∀ e ∈ cevents, days.countP (fun d => d.isPrefixOf e.Time) = 1) →
        ((days.map (fun d => currentsForDay cevents d)).flatten).Perm cevents) := by
  refine ⟨?_, ?_, ?_, ?_⟩
  · exact flatten_filter_perm (fun d e => d.isPrefixOf e.t) events days huniq
  · intro d
    exact List.filter_sublist events
  · intro d1 hd1 d2 hd2 hne e he1 he2
    rw [tidesForDay, List.mem_filter] at he1 he2
    have h2 := two_le_countP (fun d => d.isPrefixOf e.t) days d1 d2 hd1 hd2 hne
      he1.2 he2.2
    have h1 := huniq e he1.1
    omega
  · intro cevents hc
    exact flatten_filter_perm (fun d e => d.isPrefixOf e.Time) cevents days hc

/-- C9 witness: the permutation property evaluated on two day-sorted
events over a two-day range. -/
theorem c9_bucketing_nonlossy_witness :
    (∀ e ∈ orderedEvents, twoDays.countP (fun d => d.isPrefixOf e.t) = 1)
    ∧ ((twoDays.map (fun d => tidesForDay orderedEvents d)).flatten).Perm
        orderedEvents := by
  have h : ∀ e ∈ orderedEvents, twoDays.countP (fun d => d.isPrefixOf e.t) = 1 := by
    decide
  exact ⟨h, (c9_bucketing_nonlossy orderedEvents twoDays h).1⟩
